import Mathlib

set_option autoImplicit false

/-!
Verification development for the AppScale transaction coordinator
(`AppDB/appscale/datastore/zkappscale/zktransaction.py`) and the
entity-group lock (`AppDB/appscale/datastore/zkappscale/entity_lock.py`).

The ZooKeeper service is modelled as a finite node tree (association list
from a path, represented by its `/`-separated segments, to the node's
string value) together with the per-parent counters ZooKeeper uses to
assign names to sequential nodes.  Python 2 `str` values are byte strings;
we model them as Lean `String`s whose characters stand for single bytes.
All definitions are executable and structurally recursive so that concrete
runs evaluate inside the kernel.
-/

/- ### Character and string helpers (Python `str` operations used by the code) -/

/-- Digit value of a decimal character, as used when parsing `long(...)`. -/
def charDigit (c : Char) : Nat := c.toNat - '0'.toNat

/-- Accumulating decimal parser over a character list (Python `long(s)` on a
string of digits). -/
def parseNatChars : List Char → Nat → Nat
  | [], acc => acc
  | c :: cs, acc => parseNatChars cs (acc * 10 + charDigit c)

/-- Python `long(s)` for a string of decimal digits. -/
def parseNat (s : String) : Nat := parseNatChars s.data 0

/-- Decimal digits of `n`, least significant first, via fuel-structural
recursion (so the kernel can evaluate it). -/
def natDigitsAux : Nat → Nat → List Nat
  | 0, _ => []
  | _ + 1, 0 => []
  | fuel + 1, n + 1 => ((n + 1) % 10) :: natDigitsAux fuel ((n + 1) / 10)

/-- Decimal digits of `n`, least significant first (`[]` for `0`). -/
def natDigitsLSB (n : Nat) : List Nat := natDigitsAux n n

/-- Decimal rendering of `n` without leading zeros, as a character list
(empty for `0`). -/
def natRenderChars (n : Nat) : List Char :=
  ((natDigitsLSB n).reverse).map Nat.digitChar

/-- Python `str(n)` for a natural number. -/
def natRepr (n : Nat) : String :=
  if n = 0 then "0" else ⟨natRenderChars n⟩

/-- Python `"%010d" % n`: decimal rendering zero-padded to width 10. -/
def pad10 (n : Nat) : String :=
  ⟨List.replicate (10 - (natDigitsLSB n).length) '0' ++ natRenderChars n⟩

/-- Python `s.lstrip("tx")`: drop the characters `t` and `x` from the front. -/
def lstripTx (s : String) : String :=
  ⟨s.data.dropWhile (fun c => c == 't' || c == 'x')⟩

/-- Does `l` start with the pattern `pat`? -/
def listStartsWithC : List Char → List Char → Bool
  | [], _ => true
  | _ :: _, [] => false
  | p :: ps, c :: cs => p == c && listStartsWithC ps cs

/-- Does `l` contain `pat` as a contiguous substring? -/
def containsSubC (pat : List Char) : List Char → Bool
  | [] => listStartsWithC pat []
  | c :: rest => listStartsWithC pat (c :: rest) || containsSubC pat rest

/-- Substring test on strings (used to state what an error message names). -/
def strContains (s pat : String) : Bool := containsSubC pat.data s.data

/-- Python `s.startswith(p)` (also stands in for the `re.match("^" + p, s)`
calls of the source, whose patterns are literal prefixes). -/
def strStartsWith (s pat : String) : Bool := listStartsWithC pat.data s.data

/-- Fuel-structural worker for `splitOnStr`; `fuel` bounds the number of
consumed characters, `acc` holds the current (reversed) fragment. -/
def splitOnFuel (sep : List Char) : Nat → List Char → List Char → List (List Char)
  | 0, l, acc => [acc.reverse ++ l]
  | fuel + 1, l, acc =>
    match l with
    | [] => [acc.reverse]
    | c :: rest =>
      if listStartsWithC sep l then
        acc.reverse :: splitOnFuel sep fuel (l.drop sep.length) []
      else
        splitOnFuel sep fuel rest (c :: acc)

/-- Python `s.split(sep)` for a non-empty separator. -/
def splitOnStr (s sep : String) : List String :=
  if sep.data.isEmpty then [s]
  else (splitOnFuel sep.data s.data.length s.data []).map fun cs => ⟨cs⟩

/-- Python `sep.join(parts)`. -/
def joinWithSep (sep : String) : List String → String
  | [] => ""
  | [p] => p
  | p :: rest => p ++ sep ++ joinWithSep sep rest

/-- Is `c` in Python 2 `urllib.always_safe` (letters, digits, `_`, `.`, `-`)? -/
def alwaysSafeChar (c : Char) : Bool :=
  ('A' ≤ c && c ≤ 'Z') || ('a' ≤ c && c ≤ 'z') || ('0' ≤ c && c ≤ '9') ||
    c == '_' || c == '.' || c == '-'

/-- Upper-case hexadecimal digit for `n < 16`. -/
def hexDigitChar (n : Nat) : Char :=
  if n < 10 then Char.ofNat ('0'.toNat + n) else Char.ofNat ('A'.toNat + n - 10)

/-- Percent-encode one byte as `urllib.quote_plus` does. -/
def quotePlusChar (c : Char) : List Char :=
  if alwaysSafeChar c then [c]
  else if c == ' ' then ['+']
  else ['%', hexDigitChar (c.toNat / 16 % 16), hexDigitChar (c.toNat % 16)]

/-- Python 2 `urllib.quote_plus` on a byte string. -/
def quotePlus (s : String) : String := ⟨s.data.flatMap quotePlusChar⟩

/-- Value of a hexadecimal digit character. -/
def hexVal (c : Char) : Nat :=
  if '0' ≤ c && c ≤ '9' then c.toNat - '0'.toNat
  else if 'A' ≤ c && c ≤ 'F' then c.toNat - 'A'.toNat + 10
  else if 'a' ≤ c && c ≤ 'f' then c.toNat - 'a'.toNat + 10
  else 0

/-- Worker for `unquotePlus`. -/
def unquoteChars : List Char → List Char
  | [] => []
  | '+' :: rest => ' ' :: unquoteChars rest
  | '%' :: h1 :: h2 :: rest => Char.ofNat (hexVal h1 * 16 + hexVal h2) :: unquoteChars rest
  | c :: rest => c :: unquoteChars rest

/-- Python 2 `urllib.unquote_plus` on a byte string. -/
def unquotePlus (s : String) : String := ⟨unquoteChars s.data⟩

/- ### The ZooKeeper state model -/

/-- A ZooKeeper path, as its `PATH_SEPARATOR`-separated segments. -/
abbrev ZPath := List String

/-- Association-list lookup keyed by decidable equality. -/
def lookupA {α β : Type} [DecidableEq α] : List (α × β) → α → Option β
  | [], _ => none
  | (k, v) :: rest, a => if k = a then some v else lookupA rest a

/-- The ZooKeeper service: the node tree (path to value) and the per-parent
counters that name sequential children (ZooKeeper's `cversion`, monotonically
increasing and never reused, even across deletes). -/
structure ZKState where
  tree : List (ZPath × String)
  seqCtr : List (ZPath × Nat)
deriving Repr, DecidableEq

/-- Value of the node at `p`, if it exists. -/
def lookupNode (s : ZKState) (p : ZPath) : Option String := lookupA s.tree p

/-- `handle.exists`. -/
def zkExists (s : ZKState) (p : ZPath) : Bool := (lookupNode s p).isSome

/-- The kazoo exceptions whose handling the source code distinguishes. -/
inductive KazooErr
  | noNode
  | nodeExists
deriving Repr, DecidableEq

/-- Append a node (caller has checked it is absent). -/
def insertNode (s : ZKState) (p : ZPath) (v : String) : ZKState :=
  { s with tree := s.tree ++ [(p, v)] }

/-- Remove every entry stored under key `p`. -/
def eraseKeyA {β : Type} : List (ZPath × β) → ZPath → List (ZPath × β)
  | [], _ => []
  | (k, w) :: rest, p =>
    if k = p then eraseKeyA rest p else (k, w) :: eraseKeyA rest p

/-- Overwrite the value stored under key `p`. -/
def replaceKeyA {β : Type} : List (ZPath × β) → ZPath → β → List (ZPath × β)
  | [], _, _ => []
  | (k, w) :: rest, p, v =>
    if k = p then (p, v) :: replaceKeyA rest p v
    else (k, w) :: replaceKeyA rest p v

/-- Replace the value of an existing node. -/
def replaceNode (s : ZKState) (p : ZPath) (v : String) : ZKState :=
  { s with tree := replaceKeyA s.tree p v }

/-- All proper ancestors of `p`, shortest first (excluding the root). -/
def properAncestors (p : ZPath) : List ZPath :=
  (List.range p.length).drop 1 |>.map fun i => p.take i

/-- Create every missing ancestor of `p` with an empty value, as a
`makepath=True` create does. -/
def ensureAncestors (s : ZKState) (p : ZPath) : ZKState :=
  (properAncestors p).foldl
    (fun st q => if zkExists st q then st else insertNode st q "") s

/-- Does the parent of `p` exist (the root always does)? -/
def parentExists (s : ZKState) (p : ZPath) : Bool :=
  p.dropLast.isEmpty || zkExists s p.dropLast

/-- `handle.create` (non-sequential): fails with `NodeExistsError` if the node
exists, with `NoNodeError` if `makepath` is off and the parent is missing. -/
def zkCreate (s : ZKState) (p : ZPath) (v : String) (makepath : Bool) :
    Except KazooErr ZKState :=
  if zkExists s p then .error .nodeExists
  else if makepath then .ok (insertNode (ensureAncestors s p) p v)
  else if parentExists s p then .ok (insertNode s p v)
  else .error .noNode

/-- `handle.create` with `sequence=True`: `p`'s last segment is the name stem;
ZooKeeper appends the zero-padded per-parent counter.  Returns the new state
and the assigned node name. -/
def zkCreateSeq (s : ZKState) (p : ZPath) (v : String) (makepath : Bool) :
    Except KazooErr (ZKState × String) :=
  match p.getLast?, p.dropLast with
  | none, _ => .error .noNode
  | some stem, parent =>
    let n := (lookupA s.seqCtr parent).getD 0
    let name := stem ++ pad10 n
    let node := parent ++ [name]
    let s1 : ZKState :=
      { s with seqCtr := (parent, n + 1) :: eraseKeyA s.seqCtr parent }
    if zkExists s node then .error .nodeExists
    else if makepath then .ok (insertNode (ensureAncestors s1 node) node v, name)
    else if parentExists s node then .ok (insertNode s1 node v, name)
    else .error .noNode

/-- `handle.delete`: fails with `NoNodeError` if the node is missing. -/
def zkDelete (s : ZKState) (p : ZPath) : Except KazooErr ZKState :=
  if zkExists s p then .ok { s with tree := eraseKeyA s.tree p }
  else .error .noNode

/-- `handle.set`: fails with `NoNodeError` if the node is missing. -/
def zkSet (s : ZKState) (p : ZPath) (v : String) : Except KazooErr ZKState :=
  if zkExists s p then .ok (replaceNode s p v) else .error .noNode

/-- `handle.get`. -/
def zkGet (s : ZKState) (p : ZPath) : Except KazooErr String :=
  match lookupNode s p with
  | some v => .ok v
  | none => .error .noNode

/-- Names of the children of `p` in the tree, in tree order. -/
def childNames (s : ZKState) (p : ZPath) : List String :=
  s.tree.filterMap fun e =>
    match e.1.getLast? with
    | some c => if e.1.dropLast = p then some c else none
    | none => none

/-- `handle.get_children`: fails with `NoNodeError` if `p` itself is missing. -/
def zkGetChildren (s : ZKState) (p : ZPath) : Except KazooErr (List String) :=
  if p.isEmpty || zkExists s p then .ok (childNames s p) else .error .noNode

/- ### Path scheme (`zktransaction.py` constants and `get_*_path` functions) -/

/-- `"/appscale/apps"`, as path segments. -/
def APPS_PATH : ZPath := ["appscale", "apps"]

/-- `APP_TX_PATH = "txids"`. -/
def APP_TX_PATH : String := "txids"

/-- `APP_LOCK_PATH = "locks"`. -/
def APP_LOCK_PATH : String := "locks"

/-- `APP_TX_PREFIX = "tx"` of the source (renamed here). -/
def APP_TX_PRE : String := "tx"

/-- `TX_UPDATEDKEY_PREFIX = "ukey"` of the source (renamed here). -/
def TX_UPDATEDKEY_PRE : String := "ukey"

/-- `TX_LOCK_PATH = "lockpath"`. -/
def TX_LOCK_PATH : String := "lockpath"

/-- `TX_BLACKLIST_PATH = "blacklist"`. -/
def TX_BLACKLIST_PATH : String := "blacklist"

/-- `TX_VALIDLIST_PATH = "validlist"`. -/
def TX_VALIDLIST_PATH : String := "validlist"

/-- `XG_PREFIX = "xg"` of the source (renamed here). -/
def XG_PRE : String := "xg"

/-- `LOCK_LIST_SEPARATOR = "!XG_LIST!"`. -/
def LOCK_LIST_SEPARATOR : String := "!XG_LIST!"

/-- `DEFAULT_VAL = "default"`. -/
def DEFAULT_VAL : String := "default"

/-- Render a segment path as the `/`-separated absolute path string the
source passes around (`PATH_SEPARATOR.join`). -/
def pathToString (p : ZPath) : String :=
  p.foldl (fun acc seg => acc ++ "/" ++ seg) ""

/-- Parse an absolute path string back into segments (used where the source
feeds a stored path string straight back into a handle call). -/
def pathOfString (sv : String) : ZPath :=
  (splitOnStr sv "/").filter fun seg => seg ≠ ""

/-- `get_app_root_path`. -/
def get_app_root_path (app_id : String) : ZPath :=
  APPS_PATH ++ [quotePlus app_id]

/-- `get_transaction_prefix_path`. -/
def get_transaction_prefix_path (app_id : String) : ZPath :=
  get_app_root_path app_id ++ [APP_TX_PATH]

/-- `get_txn_path_before_getting_id`: the sequence-create stem path. -/
def get_txn_path_before_getting_id (app_id : String) : ZPath :=
  get_transaction_prefix_path app_id ++ [APP_TX_PRE]

/-- `APP_TX_PREFIX + "%010d" % txid`, the name of a transaction node. -/
def txNodeName (txid : Nat) : String := APP_TX_PRE ++ pad10 txid

/-- `get_transaction_path`. -/
def get_transaction_path (app_id : String) (txid : Nat) : ZPath :=
  get_app_root_path app_id ++ [APP_TX_PATH, txNodeName txid]

/-- `get_transaction_lock_list_path`. -/
def get_transaction_lock_list_path (app_id : String) (txid : Nat) : ZPath :=
  get_transaction_path app_id txid ++ [TX_LOCK_PATH]

/-- `get_blacklist_root_path`. -/
def get_blacklist_root_path (app_id : String) : ZPath :=
  get_transaction_prefix_path app_id ++ [TX_BLACKLIST_PATH]

/-- `get_valid_transaction_root_path`. -/
def get_valid_transaction_root_path (app_id : String) : ZPath :=
  get_transaction_prefix_path app_id ++ [TX_VALIDLIST_PATH]

/-- `get_valid_transaction_path`. -/
def get_valid_transaction_path (app_id entity_key : String) : ZPath :=
  get_valid_transaction_root_path app_id ++ [quotePlus entity_key]

/-- `get_lock_root_path`. -/
def get_lock_root_path (app_id key : String) : ZPath :=
  get_app_root_path app_id ++ [APP_LOCK_PATH, quotePlus key]

/-- `get_xg_path`. -/
def get_xg_path (app_id : String) (tx_id : Nat) : ZPath :=
  get_app_root_path app_id ++ [APP_TX_PATH, txNodeName tx_id, XG_PRE]

/- ### Coordinator-level exceptions -/

/-- The exception kinds `zktransaction.py` raises to its callers.
`badRequest` stands for `ZKBadRequest`, a subclass of
`ZKTransactionException` (`txException`); `internalErr` stands for
`ZKInternalException`. -/
inductive TxErr
  | txException (msg : String)
  | badRequest (msg : String)
  | internalErr (msg : String)
deriving Repr, DecidableEq

/-- Does an `except ZKTransactionException` clause catch this error?
(It also catches the subclass `ZKBadRequest`.) -/
def TxErr.isTxnExc : TxErr → Bool
  | .txException _ => true
  | .badRequest _ => true
  | .internalErr _ => false

/- ### ZKTransaction operations -/

/-- `ZKTransaction.is_blacklisted`: does the blacklist node for `txid`
exist?  (The node name is `str(txid)`, unpadded.) -/
def is_blacklisted (s : ZKState) (app_id : String) (txid : Nat) : Bool :=
  zkExists s (get_blacklist_root_path app_id ++ [natRepr txid])

/-- `ZKTransaction.is_in_transaction`: raises `ZKTransactionException` when
the transaction is blacklisted, otherwise reports whether the transaction's
lock-list node exists. -/
def is_in_transaction (s : ZKState) (app_id : String) (txid : Nat) :
    Except TxErr Bool :=
  if is_blacklisted s app_id txid then
    .error (.txException ("Transaction " ++ natRepr txid ++ " is blacklisted"))
  else
    .ok (zkExists s (get_transaction_lock_list_path app_id txid))

/-- `ZKTransaction.is_xg`: does the transaction's `xg` marker node exist? -/
def is_xg (s : ZKState) (app_id : String) (tx_id : Nat) : Bool :=
  zkExists s (get_xg_path app_id tx_id)

/-- `ZKTransaction.is_orphan_lock`: the lock node's stored owner path no
longer names an existing transaction node. -/
def is_orphan_lock (s : ZKState) (tx_lockpath : String) : Bool :=
  !zkExists s (pathOfString tx_lockpath)

/-- The message of the `ZKTransactionException` raised when a lock is held
by a live competing transaction.  It names the contested lock path. -/
def alreadyLockedMsg (lockrootpath : ZPath) : String :=
  "acquire_additional_lock: There is already another transaction using " ++
    pathToString lockrootpath ++ " lock"

/-- The message of the `ZKBadRequest` raised when an XG transaction exceeds
`MAX_GROUPS_FOR_XG`. -/
def tooManyGroupsMsg : String :=
  "acquire_additional_lock: Too many groups for this XG transaction."

/-- The message of the `ZKBadRequest` raised when a non-XG transaction asks
for a second entity group. -/
def crossGroupMsg : String :=
  "acquire_lock: You can not lock different root entity in non-cross-group transaction."

/-- `ZKTransaction.acquire_additional_lock`.  `fuel` bounds the
retry-after-orphan recursion of the source (which re-invokes itself after
deleting a stale lock; one unit of fuel per retry).  `cap` is the imported
`MAX_GROUPS_FOR_XG` constant.  Returns the post-call ZooKeeper state (the
service keeps all effects performed before an exception) and either the
result or the raised exception. -/
def acquire_additional_lock : Nat → ZKState → String → Nat → String → Bool →
    Nat → ZKState × Except TxErr Bool
  | fuel, s, app_id, txid, entity_key, create, cap =>
    let txpath := get_transaction_path app_id txid
    let lockrootpath := get_lock_root_path app_id entity_key
    match zkCreate s lockrootpath (pathToString txpath) true with
    | .error _ =>
      -- NodeExistsError: the lock is taken; inspect the current holder.
      match zkGet s lockrootpath with
      | .error _ =>
        -- The holder vanished between create and get (logged race); the
        -- handler falls through to the AlreadyLocked exception.
        (s, .error (.txException (alreadyLockedMsg lockrootpath)))
      | .ok tx_lockpath =>
        if is_orphan_lock s tx_lockpath then
          match zkDelete s lockrootpath with
          | .ok s1 =>
            match fuel with
            | 0 => (s1, .error (.internalErr "retry fuel exhausted"))
            | f + 1 => acquire_additional_lock f s1 app_id txid entity_key create cap
          | .error _ =>
            (s, .error (.txException (alreadyLockedMsg lockrootpath)))
        else
          (s, .error (.txException (alreadyLockedMsg lockrootpath)))
    | .ok s1 =>
      -- `handle.create` returned the created path string.
      let lockpath := pathToString lockrootpath
      let transaction_lock_path := get_transaction_lock_list_path app_id txid
      if create then
        -- `create_async`: the result future is never inspected.
        let s2 := match zkCreate s1 transaction_lock_path lockpath false with
          | .ok s' => s'
          | .error _ => s1
        (s2, .ok true)
      else
        match zkGet s1 transaction_lock_path with
        | .error _ =>
          (s1, .error (.txException
            ("Couldn't create or set a lock at path " ++
              pathToString transaction_lock_path)))
        | .ok tx_lockpath =>
          let lock_list := splitOnStr tx_lockpath LOCK_LIST_SEPARATOR ++ [lockpath]
          let lock_list_str := joinWithSep LOCK_LIST_SEPARATOR lock_list
          -- `set_async`: the result future is never inspected.
          let s2 := match zkSet s1 transaction_lock_path lock_list_str with
            | .ok s' => s'
            | .error _ => s1
          if lock_list.length > cap then
            (s2, .error (.badRequest tooManyGroupsMsg))
          else
            (s2, .ok true)

/-- `ZKTransaction.acquire_lock`.  `cap` is `MAX_GROUPS_FOR_XG`, `fuel` is
passed through to `acquire_additional_lock`. -/
def acquire_lock (fuel : Nat) (s : ZKState) (app_id : String) (txid : Nat)
    (entity_key : String) (cap : Nat) : ZKState × Except TxErr Bool :=
  let lockrootpath := get_lock_root_path app_id entity_key
  match is_in_transaction s app_id txid with
  | .error e =>
    -- A blacklist ZKTransactionException is not among the caught classes
    -- and propagates unchanged.
    (s, .error e)
  | .ok false => acquire_additional_lock fuel s app_id txid entity_key true cap
  | .ok true =>
    match zkGet s (get_transaction_lock_list_path app_id txid) with
    | .error _ =>
      (s, .error (.txException
        ("Couldn't get lock for app id " ++ app_id ++ ", txid " ++
          natRepr txid ++ ", entity key " ++ entity_key)))
    | .ok prelockpath =>
      let lock_list := splitOnStr prelockpath LOCK_LIST_SEPARATOR
      if pathToString lockrootpath ∈ lock_list then
        (s, .ok true)
      else if is_xg s app_id txid then
        acquire_additional_lock fuel s app_id txid entity_key false cap
      else
        (s, .error (.badRequest crossGroupMsg))

/-- Worker for `get_updated_key_list`: walk the transaction node's children
in order, decoding every `ukey*` child's `quotedKey/targetTxid` value.  A
vanished child raises `NoNodeError`, which the source turns into the same
`ZKTransactionException` as a missing transaction node. -/
def collectUpdatedKeys (s : ZKState) (txpath : ZPath) (txid : Nat) :
    List String → Except TxErr (List (String × String))
  | [] => .ok []
  | item :: rest =>
    if strStartsWith item TX_UPDATEDKEY_PRE then
      match lookupNode s (txpath ++ [item]) with
      | none =>
        .error (.txException ("get_updated_key_list: Transaction ID " ++
          natRepr txid ++ " is not valid."))
      | some keyandtx =>
        let parts := splitOnStr keyandtx "/"
        let key := unquotePlus (parts.getD 0 "")
        let txn_id := unquotePlus (parts.getD 1 "")
        (collectUpdatedKeys s txpath txid rest).map fun tl => (key, txn_id) :: tl
    else
      collectUpdatedKeys s txpath txid rest

/-- `ZKTransaction.get_updated_key_list`: the `(key, target txid)` pairs the
transaction registered, or a `ZKTransactionException` when the transaction
node does not exist. -/
def get_updated_key_list (s : ZKState) (app_id : String) (txid : Nat) :
    Except TxErr (List (String × String)) :=
  let txpath := get_transaction_path app_id txid
  match zkGetChildren s txpath with
  | .error _ =>
    .error (.txException ("get_updated_key_list: Transaction ID " ++
      natRepr txid ++ " is not valid."))
  | .ok children => collectUpdatedKeys s txpath txid children

/-- `ZKTransaction.get_valid_transaction_id`.  Read-only, so only the result
is returned.  The `except ZKTransactionException` clause (taken when
`is_in_transaction` finds the transaction blacklisted, or when the updated
key list vanishes mid-read) falls back to the ValidVersion entry for the
key, defaulting to `0`. -/
def get_valid_transaction_id (s : ZKState) (app_id : String)
    (target_txid : Nat) (entity_key : String) : Except TxErr Nat :=
  let fallback : Except TxErr Nat :=
    match lookupNode s (get_valid_transaction_path app_id entity_key) with
    | some v => .ok (parseNat v)
    | none => .ok 0
  match is_in_transaction s app_id target_txid with
  | .error e => if e.isTxnExc then fallback else .error e
  | .ok false => .ok target_txid
  | .ok true =>
    match get_updated_key_list s app_id target_txid with
    | .error e => if e.isTxnExc then fallback else .error e
    | .ok key_list =>
      match key_list.find? (fun kv => kv.1 = entity_key) with
      | some kv => .ok (parseNat kv.2)
      | none => .ok target_txid

/-- The message of the `ZKTransactionException` raised by
`register_updated_key` when neither a ValidVersion entry nor the current
transaction node exists. -/
def notValidMsg (current_txid : Nat) : String :=
  "Transaction " ++ natRepr current_txid ++ " is not valid."

/-- `ZKTransaction.register_updated_key`.  When a ValidVersion entry for the
key exists it is overwritten (`set_async`) with `target_txid`; otherwise a
sequential `ukey` child holding `quotedKey/targetTxid` is added under the
current transaction's node (`create_async`, result ignored); if that node is
missing too, a `ZKTransactionException` is raised. -/
def register_updated_key (s : ZKState) (app_id : String)
    (current_txid target_txid : Nat) (entity_key : String) :
    ZKState × Except TxErr Bool :=
  let vtxpath := get_valid_transaction_path app_id entity_key
  if zkExists s vtxpath then
    match zkSet s vtxpath (natRepr target_txid) with
    | .ok s1 => (s1, .ok true)
    | .error _ =>
      (s, .error (.internalErr ("Couldn't register updated key for app " ++ app_id)))
  else
    let txpath := get_transaction_path app_id current_txid
    if zkExists s txpath then
      let value := quotePlus entity_key ++ "/" ++ natRepr target_txid
      let s1 := match zkCreateSeq s (txpath ++ [TX_UPDATEDKEY_PRE]) value false with
        | .ok (s', _) => s'
        | .error _ => s
      (s1, .ok true)
    else
      (s, .error (.txException (notValidMsg current_txid)))

/-- Step of `notify_failed_transaction` that copies one `ukey` child's
previous valid version into the ValidVersion table: creates the tenant's
`validlist` root if missing, then `create_async`s the per-key entry (a
failure of the asynchronous create — e.g. the entry already exists — is
never observed). -/
def copyUkeyChild (app_id : String) (txpath : ZPath) (s : ZKState)
    (child : String) : ZKState × Bool :=
  if strStartsWith child TX_UPDATEDKEY_PRE then
    match lookupNode s (txpath ++ [child]) with
    | none => (s, false)  -- NoNodeError inside the guarded block: return False
    | some value =>
      let valuelist := splitOnStr value "/"
      let key := unquotePlus (valuelist.getD 0 "")
      let vid := valuelist.getD 1 ""
      let vtxroot := get_valid_transaction_root_path app_id
      let s1 := if zkExists s vtxroot then s
        else match zkCreate s vtxroot DEFAULT_VAL true with
          | .ok s' => s'
          | .error _ => s
      let vtxpath := get_valid_transaction_path app_id key
      let s2 := match zkCreate s1 vtxpath vid false with
        | .ok s' => s'
        | .error _ => s1
      (s2, true)
  else
    (s, true)

/-- Fold `copyUkeyChild` over the children, stopping at the first failure. -/
def copyUkeyChildren (app_id : String) (txpath : ZPath) (s : ZKState) :
    List String → ZKState × Bool
  | [] => (s, true)
  | child :: rest =>
    match copyUkeyChild app_id txpath s child with
    | (s1, true) => copyUkeyChildren app_id txpath s1 rest
    | (s1, false) => (s1, false)

/-- Delete each path in the list, ignoring `NoNodeError` per item. -/
def deleteEach (s : ZKState) : List ZPath → ZKState
  | [] => s
  | p :: rest =>
    match zkDelete s p with
    | .ok s1 => deleteEach s1 rest
    | .error _ => deleteEach s rest

/-- `ZKTransaction.notify_failed_transaction`: copies each touched key's
previous valid version into the ValidVersion table, releases every held
lock path, removes the `xg` marker, the transaction's children and the
transaction node itself.  Returns the post-call state and the boolean the
method returns. -/
def notify_failed_transaction (s : ZKState) (app_id : String) (txid : Nat) :
    ZKState × Bool :=
  let txpath := get_transaction_path app_id txid
  let lock_list : List String :=
    match lookupNode s (txpath ++ [TX_LOCK_PATH]) with
    | some lockpath => splitOnStr lockpath LOCK_LIST_SEPARATOR
    | none => []  -- NoNodeError: nothing to roll back
  -- Copy the valid transaction id of each updated key into the valid list.
  let step2 : ZKState × Bool :=
    if lock_list.isEmpty then (s, true)
    else
      let children := match zkGetChildren s txpath with
        | .ok cs => cs
        | .error _ => []  -- NoNodeError caught: treat as no children
      copyUkeyChildren app_id txpath s children
  match step2 with
  | (s2, false) => (s2, false)
  | (s2, true) =>
    -- Release the locks (NoNodeError per lock is skipped).
    let s3 := deleteEach s2 (lock_list.map pathOfString)
    -- Remove the cross-group marker if present.
    let s4 := if is_xg s3 app_id txid then
        match zkDelete s3 (get_xg_path app_id txid) with
        | .ok s' => s'
        | .error _ => s3
      else s3
    -- Remove the transaction node's children, then the node itself; a
    -- NoNodeError from this get_children or the final delete is caught by
    -- the surrounding ZookeeperError handler, which returns False.
    match zkGetChildren s4 txpath with
    | .error _ => (s4, false)
    | .ok items =>
      let s5 := deleteEach s4 (items.map fun item => txpath ++ [item])
      match zkDelete s5 txpath with
      | .ok s6 => (s6, true)
      | .error _ => (s5, false)

/-- `ZKTransaction.create_sequence_node`: create a sequential node under the
stem path `p`; if ZooKeeper assigned sequence `0`, delete that node and
create another one, returning the id parsed (`lstrip`ped of `t`/`x`) from
the assigned name. -/
def create_sequence_node (s : ZKState) (p : ZPath) (value : String) :
    ZKState × Except TxErr Nat :=
  let failMsg := "Unable to create sequence node with path " ++
    pathToString p ++ ", value " ++ value
  match zkCreateSeq s p value true with
  | .error _ => (s, .error (.txException failMsg))
  | .ok (s1, name) =>
    let txn_id := parseNat (lstripTx name)
    if txn_id = 0 then
      match zkDelete s1 (p.dropLast ++ [name]) with
      | .error _ => (s1, .error (.txException failMsg))
      | .ok s2 =>
        match zkCreateSeq s2 p value true with
        | .error _ => (s2, .error (.txException failMsg))
        | .ok (s3, name2) => (s3, .ok (parseNat (lstripTx name2)))
    else
      (s1, .ok txn_id)

/-- `ZKTransaction.get_transaction_id` (the coordinator's `begin`): allocate
the sequential transaction node (value = creation timestamp) and, for an XG
transaction, create the `xg` marker node. -/
def get_transaction_id (s : ZKState) (app_id : String) (is_xg_txn : Bool)
    (timestamp : String) : ZKState × Except TxErr Nat :=
  let app_path := get_txn_path_before_getting_id app_id
  match create_sequence_node s app_path timestamp with
  | (s1, .error e) => (s1, .error e)
  | (s1, .ok txn_id) =>
    if is_xg_txn then
      match zkCreate s1 (get_xg_path app_id txn_id) timestamp true with
      | .ok s2 => (s2, .ok txn_id)
      | .error _ =>
        (s1, .error (.txException ("Couldn't create path " ++
          pathToString (get_xg_path app_id txn_id))))
    else
      (s1, .ok txn_id)

/- ### EntityLock (`entity_lock.py`) deadlock resolution -/

/-- Python `list.index`: position of the first occurrence (the source only
calls it when the element is present). -/
def firstIdx (x : String) : List String → Nat
  | [] => 0
  | y :: rest => if y = x then 0 else firstIdx x rest + 1

/-- Zip the lock paths, this contender's node names and the per-path sorted
children lists, as `enumerate(children_list)` pairs them in the source. -/
def zip3L {α β γ : Type} : List α → List β → List γ → List (α × β × γ)
  | a :: as_, b :: bs, c :: cs => (a, b, c) :: zip3L as_ bs cs
  | _, _, _ => []

/-- `EntityLock.acquired_lock`: first position in the sorted children list
means the path is held. -/
def acquired_lock (index : Nat) : Bool := index == 0

/-- One earlier contender forces this transaction to yield if its stored
value parses to a txid smaller than ours (`NoNodeError` and empty values are
skipped). -/
def earlierForcesYield (s : ZKState) (current_txid : Nat) (path : ZPath)
    (child : String) : Bool :=
  match lookupNode s (path ++ [child]) with
  | none => false
  | some dat => if dat = "" then false else decide (current_txid > parseNat dat)

/-- `EntityLock._resolve_deadlocks`, as written: for each path whose lock we
do not hold, examine the earlier contenders **up to but excluding the
immediate predecessor** (`children[:our_index - 1]`) and force a retry
(delete our contender nodes, raise `ForceRetryError`) when our txid is the
larger.  Returns whether a retry was forced. -/
def resolve_deadlocks (s : ZKState) (current_txid : Nat) :
    List (ZPath × String × List String) → Bool
  | [] => false
  | (path, ourNode, children) :: rest =>
    let ourIndex := firstIdx ourNode children
    if acquired_lock ourIndex then resolve_deadlocks s current_txid rest
    else if (children.take (ourIndex - 1)).any
        (earlierForcesYield s current_txid path) then true
    else resolve_deadlocks s current_txid rest

/-- Modelled from the spec: the deadlock-resolution step as §4.3 step 4 and
claim C4 describe it — examine **every** earlier contender
(`children[:our_index]`) on every path not yet acquired.  Kept for
comparison with `resolve_deadlocks`, which the source implements with
`children[:our_index - 1]`. -/
def resolve_deadlocks_per_spec (s : ZKState) (current_txid : Nat) :
    List (ZPath × String × List String) → Bool
  | [] => false
  | (path, ourNode, children) :: rest =>
    let ourIndex := firstIdx ourNode children
    if acquired_lock ourIndex then resolve_deadlocks_per_spec s current_txid rest
    else if (children.take ourIndex).any
        (earlierForcesYield s current_txid path) then true
    else resolve_deadlocks_per_spec s current_txid rest

/- ### Garbage collection and batch resolution -/

/-- The backing-store state `resolve_batch` touches: the `batch_status` row's
`applied` flag (`none` = no row), whether `batches` rows remain, and whether
a concurrent process wins the lightweight (compare-and-swap) transaction
against us (the only way a CAS observed right after our own read can fail). -/
structure DbState where
  status : Option Bool
  hasBatch : Bool
  casRaced : Bool
deriving Repr, DecidableEq

/-- `BatchInProgress`: a concurrent process is working on the batch. -/
inductive BatchErr
  | batchInProgress
deriving Repr, DecidableEq

/-- `ZKTransaction.establish_batch_lock`: claim the batch via a
compare-and-swap on the `batch_status` row; a lost race raises
`BatchInProgress`. -/
def establish_batch_lock (db : DbState) (status_exists : Bool) :
    DbState × Except BatchErr Unit :=
  if status_exists then
    if db.status = some false && !db.casRaced then
      ({ db with status := none }, .ok ())
    else
      (db, .error .batchInProgress)
  else
    if db.status = none && !db.casRaced then
      ({ db with status := some false }, .ok ())
    else
      (db, .error .batchInProgress)

/-- `ZKTransaction.clean_up_batch`: drop the `batches` rows and the
`batch_status` row. -/
def clean_up_batch (db : DbState) : DbState :=
  { db with status := none, hasBatch := false }

/-- `ZKTransaction.resolve_batch`: no status row, or an unapplied batch,
is claimed via the CAS marker and discarded; an applied batch has its
mutations applied and is then cleaned up.  Returns whether the mutation
apply step ran. -/
def resolve_batch (db : DbState) : DbState × Except BatchErr Bool :=
  match db.status with
  | none =>
    match establish_batch_lock db false with
    | (db1, .ok ()) => (clean_up_batch db1, .ok false)
    | (db1, .error e) => (db1, .error e)
  | some false =>
    match establish_batch_lock db true with
    | (db1, .ok ()) => (clean_up_batch db1, .ok false)
    | (db1, .error e) => (db1, .error e)
  | some true =>
    (clean_up_batch db, .ok true)

/-- The externally visible calls of one `execute_garbage_collection` loop
iteration for one transaction. -/
inductive GCEvent
  | batchResolved
  | txNotified
  | batchInProgressSkip
deriving Repr, DecidableEq

/-- One iteration of the per-transaction loop body of
`ZKTransaction.execute_garbage_collection`: when the transaction's start
time plus `max_tx_duration` is in the past, resolve its batch and then call
`notify_failed_transaction`; a `BatchInProgress` from the resolution skips
the notification for this cycle. -/
def gc_process_tx (s : ZKState) (db : DbState) (app_id : String) (txid : Nat)
    (txtime now max_tx_duration : Nat) : ZKState × DbState × List GCEvent :=
  if txtime + max_tx_duration < now then
    match resolve_batch db with
    | (db1, .ok _) =>
      let (s1, _) := notify_failed_transaction s app_id txid
      (s1, db1, [GCEvent.batchResolved, GCEvent.txNotified])
    | (db1, .error .batchInProgress) =>
      (s, db1, [GCEvent.batchInProgressSkip])
  else
    (s, db, [])

/- ### Lookup lemmas for the state model -/

theorem lookupA_append_ne {β : Type} (p q : ZPath) (v : β) (h : q ≠ p) :
    ∀ t : List (ZPath × β), lookupA (t ++ [(q, v)]) p = lookupA t p := by
  intro t
  induction t with
  | nil => simp [lookupA, h]
  | cons e rest ih =>
    by_cases he : e.1 = p
    · simp [lookupA, he]
    · simp [lookupA, he, ih]

theorem lookupA_append_self {β : Type} (p : ZPath) (v : β) :
    ∀ t : List (ZPath × β), lookupA t p = none →
      lookupA (t ++ [(p, v)]) p = some v := by
  intro t
  induction t with
  | nil => simp [lookupA]
  | cons e rest ih =>
    intro h
    by_cases he : e.1 = p
    · simp [lookupA, he] at h
    · simp [lookupA, he] at h ⊢
      exact ih h

theorem lookupA_eraseKeyA_self {β : Type} (p : ZPath) :
    ∀ t : List (ZPath × β), lookupA (eraseKeyA t p) p = none := by
  intro t
  induction t with
  | nil => simp [eraseKeyA, lookupA]
  | cons e rest ih =>
    obtain ⟨k, w⟩ := e
    by_cases hk : k = p
    · rw [eraseKeyA, if_pos hk]; exact ih
    · rw [eraseKeyA, if_neg hk, lookupA, if_neg hk]; exact ih

theorem lookupA_eraseKeyA_ne {β : Type} (p q : ZPath) (h : q ≠ p) :
    ∀ t : List (ZPath × β), lookupA (eraseKeyA t q) p = lookupA t p := by
  intro t
  induction t with
  | nil => simp [eraseKeyA]
  | cons e rest ih =>
    obtain ⟨k, w⟩ := e
    by_cases hk : k = q
    · have hkp : k ≠ p := fun hh => h (hk ▸ hh)
      rw [eraseKeyA, if_pos hk, lookupA, if_neg hkp]; exact ih
    · by_cases hkp : k = p
      · rw [eraseKeyA, if_neg hk, lookupA, if_pos hkp, lookupA, if_pos hkp]
      · rw [eraseKeyA, if_neg hk, lookupA, if_neg hkp, lookupA, if_neg hkp]; exact ih

theorem lookupA_replaceKeyA_self {β : Type} (p : ZPath) (v : β) :
    ∀ t : List (ZPath × β), lookupA t p ≠ none →
      lookupA (replaceKeyA t p v) p = some v := by
  intro t
  induction t with
  | nil => simp [lookupA]
  | cons e rest ih =>
    intro h
    obtain ⟨k, w⟩ := e
    by_cases hk : k = p
    · rw [replaceKeyA, if_pos hk, lookupA, if_pos rfl]
    · rw [lookupA, if_neg hk] at h
      rw [replaceKeyA, if_neg hk, lookupA, if_neg hk]; exact ih h

theorem lookupA_replaceKeyA_ne {β : Type} (p q : ZPath) (v : β) (h : q ≠ p) :
    ∀ t : List (ZPath × β), lookupA (replaceKeyA t q v) p = lookupA t p := by
  intro t
  induction t with
  | nil => simp [replaceKeyA]
  | cons e rest ih =>
    obtain ⟨k, w⟩ := e
    by_cases hk : k = q
    · have hkp : k ≠ p := fun hh => h (hk ▸ hh)
      rw [replaceKeyA, if_pos hk, lookupA, if_neg h, lookupA, if_neg hkp]; exact ih
    · by_cases hkp : k = p
      · rw [replaceKeyA, if_neg hk, lookupA, if_pos hkp, lookupA, if_pos hkp]
      · rw [replaceKeyA, if_neg hk, lookupA, if_neg hkp, lookupA, if_neg hkp]; exact ih

/-- `insertNode` at a fresh path makes that path's value visible. -/
theorem lookupNode_insert_self (s : ZKState) (p : ZPath) (v : String)
    (h : lookupNode s p = none) : lookupNode (insertNode s p v) p = some v :=
  lookupA_append_self p v s.tree h

/-- `insertNode` elsewhere does not change a lookup. -/
theorem lookupNode_insert_ne (s : ZKState) (p q : ZPath) (v : String)
    (h : q ≠ p) : lookupNode (insertNode s q v) p = lookupNode s p :=
  lookupA_append_ne p q v h s.tree

/-- Every proper ancestor is strictly shorter than its path. -/
theorem properAncestors_length_lt (p q : ZPath) (h : q ∈ properAncestors p) :
    q.length < p.length := by
  simp only [properAncestors, List.mem_map] at h
  obtain ⟨i, hi, rfl⟩ := h
  have hilt : i < p.length := by
    have := List.mem_of_mem_drop hi
    simpa [List.mem_range] using this
  simp only [List.length_take]
  omega

/-- Folding missing-ancestor inserts over paths different from `p` does not
change the lookup at `p`. -/
theorem lookupNode_foldl_ensure (p : ZPath) :
    ∀ (L : List ZPath) (s : ZKState), (∀ q ∈ L, q ≠ p) →
      lookupNode
        (L.foldl (fun st q => if zkExists st q then st else insertNode st q "") s) p =
      lookupNode s p := by
  intro L
  induction L with
  | nil => intro s _; rfl
  | cons a rest ih =>
    intro s h
    have ha : a ≠ p := h a (by simp)
    have hrest : ∀ q ∈ rest, q ≠ p := fun q hq => h q (by simp [hq])
    rw [List.foldl_cons]
    by_cases hex : zkExists s a
    · rw [if_pos hex]
      exact ih s hrest
    · rw [if_neg hex, ih (insertNode s a "") hrest]
      exact lookupNode_insert_ne s p a "" ha

/-- `ensureAncestors` only touches strictly shorter paths, so lookups at
paths at least as long as the target are unchanged. -/
theorem lookupNode_ensureAncestors (s : ZKState) (q p : ZPath)
    (h : q.length ≤ p.length) :
    lookupNode (ensureAncestors s q) p = lookupNode s p := by
  apply lookupNode_foldl_ensure
  intro r hr hrp
  have hlt := properAncestors_length_lt q r hr
  rw [hrp] at hlt
  omega

/- ### Decimal rendering and parsing round trip -/

theorem natDigitsAux_ofDigits : ∀ fuel n, n ≤ fuel →
    Nat.ofDigits 10 (natDigitsAux fuel n) = n := by
  intro fuel
  induction fuel with
  | zero =>
    intro n h
    interval_cases n
    simp [natDigitsAux]
  | succ f ih =>
    intro n h
    match n with
    | 0 => simp [natDigitsAux]
    | m + 1 =>
      have hdiv : (m + 1) / 10 ≤ f := by
        have h1 : (m + 1) / 10 < m + 1 := Nat.div_lt_self (Nat.succ_pos m) (by norm_num)
        omega
      simp only [natDigitsAux, Nat.ofDigits_cons, ih _ hdiv]
      omega

theorem natDigitsAux_lt : ∀ fuel n d, d ∈ natDigitsAux fuel n → d < 10 := by
  intro fuel
  induction fuel with
  | zero => intro n d h; simp [natDigitsAux] at h
  | succ f ih =>
    intro n d h
    match n with
    | 0 => simp [natDigitsAux] at h
    | m + 1 =>
      simp only [natDigitsAux, List.mem_cons] at h
      rcases h with h | h
      · rw [h]; exact Nat.mod_lt _ (by norm_num)
      · exact ih _ d h

theorem parseNatChars_append : ∀ (a b : List Char) (acc : Nat),
    parseNatChars (a ++ b) acc = parseNatChars b (parseNatChars a acc) := by
  intro a
  induction a with
  | nil => intro b acc; rfl
  | cons c cs ih => intro b acc; simp [parseNatChars, ih]

theorem charDigit_digitChar (d : Nat) (h : d < 10) :
    charDigit (Nat.digitChar d) = d := by
  interval_cases d <;> decide

theorem parseNatChars_rev_digits : ∀ (l : List Nat) (acc : Nat),
    (∀ d ∈ l, d < 10) →
    parseNatChars ((l.reverse).map Nat.digitChar) acc =
      acc * 10 ^ l.length + Nat.ofDigits 10 l := by
  intro l
  induction l with
  | nil => intro acc _; simp [parseNatChars]
  | cons d l' ih =>
    intro acc hlt
    rw [List.reverse_cons, List.map_append, parseNatChars_append]
    have hd : d < 10 := hlt d (by simp)
    rw [ih acc (fun x hx => hlt x (by simp [hx]))]
    simp only [List.map_cons, List.map_nil, parseNatChars,
      charDigit_digitChar d hd, Nat.ofDigits_cons, List.length_cons]
    ring

theorem parseNatChars_zeros : ∀ k, parseNatChars (List.replicate k '0') 0 = 0 := by
  intro k
  induction k with
  | zero => rfl
  | succ k ih => simpa [List.replicate, parseNatChars, charDigit] using ih

theorem digitChar_not_tx (d : Nat) (h : d < 10) :
    ((Nat.digitChar d == 't' || Nat.digitChar d == 'x') = false) := by
  interval_cases d <;> decide

/-- Every character of a zero-padded decimal rendering survives
`lstrip("tx")`. -/
theorem padded_render_not_tx (n k : Nat) :
    ∀ c ∈ List.replicate k '0' ++ natRenderChars n,
      (c == 't' || c == 'x') = false := by
  intro c hc
  rcases List.mem_append.mp hc with hz | hr
  · rw [List.eq_of_mem_replicate hz]; decide
  · simp only [natRenderChars, List.mem_map] at hr
    obtain ⟨d, hd, rfl⟩ := hr
    have hd10 : d < 10 := natDigitsAux_lt n n d (List.mem_reverse.mp hd)
    exact digitChar_not_tx d hd10

/-- `dropWhile` leaves a list alone when no element satisfies the test. -/
theorem dropWhile_eq_self_of_none {α : Type} (p : α → Bool) :
    ∀ l : List α, (∀ c ∈ l, p c = false) → List.dropWhile p l = l := by
  intro l h
  cases l with
  | nil => rfl
  | cons c rest =>
    rw [List.dropWhile_cons, h c (by simp)]
    simp

/-- Parsing the `lstrip("tx")`-stripped name of the sequential node
`"tx" ++ "%010d" % n` recovers `n` (the source's
`long(path.split("/")[-1].lstrip(APP_TX_PREFIX))`). -/
theorem parseNat_lstrip_txname (n : Nat) :
    parseNat (lstripTx (APP_TX_PRE ++ pad10 n)) = n := by
  have hdata : (APP_TX_PRE ++ pad10 n).data
      = 't' :: 'x' ::
        (List.replicate (10 - (natDigitsLSB n).length) '0' ++ natRenderChars n) := rfl
  have hdrop : (lstripTx (APP_TX_PRE ++ pad10 n)).data
      = List.replicate (10 - (natDigitsLSB n).length) '0' ++ natRenderChars n := by
    show (((APP_TX_PRE ++ pad10 n).data).dropWhile fun c => c == 't' || c == 'x')
        = _
    rw [hdata, List.dropWhile_cons, List.dropWhile_cons]
    simp only [show (('t' == 't' || 't' == 'x') = true) from rfl,
      show (('x' == 't' || 'x' == 'x') = true) from rfl, if_true]
    exact dropWhile_eq_self_of_none _ _ (padded_render_not_tx n _)
  show parseNatChars (lstripTx (APP_TX_PRE ++ pad10 n)).data 0 = n
  rw [hdrop, parseNatChars_append]
  rw [parseNatChars_zeros]
  have hlt : ∀ d ∈ natDigitsLSB n, d < 10 := fun d hd => natDigitsAux_lt n n d hd
  have := parseNatChars_rev_digits (natDigitsLSB n) 0 hlt
  rw [natRenderChars, this, show natDigitsLSB n = natDigitsAux n n from rfl,
    natDigitsAux_ofDigits n n (le_refl n)]
  ring

/-- Reduction of a sequential create at a stem path `pre ++ [stem]`. -/
theorem zkCreateSeq_concat (s : ZKState) (pre : ZPath) (stem v : String)
    (mp : Bool) :
    zkCreateSeq s (pre ++ [stem]) v mp =
      (if zkExists s (pre ++ [stem ++ pad10 ((lookupA s.seqCtr pre).getD 0)])
       then .error .nodeExists
       else if mp then
         .ok (insertNode
            (ensureAncestors
              { s with seqCtr :=
                  (pre, (lookupA s.seqCtr pre).getD 0 + 1) :: eraseKeyA s.seqCtr pre }
              (pre ++ [stem ++ pad10 ((lookupA s.seqCtr pre).getD 0)]))
            (pre ++ [stem ++ pad10 ((lookupA s.seqCtr pre).getD 0)]) v,
           stem ++ pad10 ((lookupA s.seqCtr pre).getD 0))
       else if parentExists s (pre ++ [stem ++ pad10 ((lookupA s.seqCtr pre).getD 0)]) then
         .ok (insertNode
            { s with seqCtr :=
                (pre, (lookupA s.seqCtr pre).getD 0 + 1) :: eraseKeyA s.seqCtr pre }
            (pre ++ [stem ++ pad10 ((lookupA s.seqCtr pre).getD 0)]) v,
           stem ++ pad10 ((lookupA s.seqCtr pre).getD 0))
       else .error .noNode) := by
  unfold zkCreateSeq
  have h1 : (pre ++ [stem]).getLast? = some stem := by simp
  have h2 : (pre ++ [stem]).dropLast = pre := by simp
  rw [h1, h2]

/-- `ensureAncestors` never touches the sequence counters. -/
theorem ensureAncestors_seqCtr (s : ZKState) (p : ZPath) :
    (ensureAncestors s p).seqCtr = s.seqCtr := by
  unfold ensureAncestors
  induction properAncestors p generalizing s with
  | nil => rfl
  | cons a rest ih =>
    rw [List.foldl_cons]
    by_cases hex : zkExists s a
    · rw [if_pos hex]; exact ih s
    · rw [if_neg hex, ih (insertNode s a "")]; rfl

/-- A transaction id produced by `create_sequence_node` under the `tx` stem
is strictly positive: sequence `0` is deleted and reallocated, and the
ZooKeeper counter hands out a larger number on that retry. -/
theorem create_sequence_node_pos (s : ZKState) (pre : ZPath) (v : String)
    (m : Nat) (h : (create_sequence_node s (pre ++ [APP_TX_PRE]) v).2 = .ok m) :
    0 < m := by
  have hdrop : (pre ++ [APP_TX_PRE]).dropLast = pre := by simp
  unfold create_sequence_node at h
  rw [zkCreateSeq_concat, hdrop] at h
  set n0 := (lookupA s.seqCtr pre).getD 0 with hn0
  by_cases hex : zkExists s (pre ++ [APP_TX_PRE ++ pad10 n0])
  · rw [if_pos hex] at h
    simp at h
  · rw [if_neg hex, if_pos rfl] at h
    simp only [parseNat_lstrip_txname] at h
    by_cases hzero : n0 = 0
    · rw [if_pos hzero] at h
      have hnone : lookupNode s (pre ++ [APP_TX_PRE ++ pad10 n0]) = none := by
        revert hex
        unfold zkExists
        cases lookupNode s (pre ++ [APP_TX_PRE ++ pad10 n0]) <;> simp
      have hfresh : lookupNode
          (ensureAncestors
            { s with seqCtr := (pre, n0 + 1) :: eraseKeyA s.seqCtr pre }
            (pre ++ [APP_TX_PRE ++ pad10 n0]))
          (pre ++ [APP_TX_PRE ++ pad10 n0]) = none := by
        rw [lookupNode_ensureAncestors _ _ _ (le_refl _)]
        exact hnone
      have hins : lookupNode
          (insertNode
            (ensureAncestors
              { s with seqCtr := (pre, n0 + 1) :: eraseKeyA s.seqCtr pre }
              (pre ++ [APP_TX_PRE ++ pad10 n0]))
            (pre ++ [APP_TX_PRE ++ pad10 n0]) v)
          (pre ++ [APP_TX_PRE ++ pad10 n0]) = some v :=
        lookupNode_insert_self _ _ _ hfresh
      simp only [zkDelete, zkExists, hins, Option.isSome_some, if_true] at h
      rw [zkCreateSeq_concat] at h
      simp only [insertNode, ensureAncestors_seqCtr] at h
      have hctr : (lookupA ((pre, n0 + 1) :: eraseKeyA s.seqCtr pre) pre).getD 0 = n0 + 1 := by
        simp [lookupA]
      simp only [hctr] at h
      split at h
      · simp at h
      · rename_i s3 name2 heq
        split at heq
        · exact absurd heq (by simp)
        · split at heq
          · simp only [Except.ok.injEq, Prod.mk.injEq] at heq
            obtain ⟨hs3, hname⟩ := heq
            subst hname
            simp only [parseNat_lstrip_txname] at h
            simp at h
            omega
          · rename_i hcontra
            exact absurd trivial hcontra
    · rw [if_neg hzero] at h
      simp only [Except.ok.injEq] at h
      omega

/-- `get_transaction_id` (`begin`) hands back the id allocated by
`create_sequence_node`, which is never `0`. -/
theorem get_transaction_id_pos (s : ZKState) (app_id : String)
    (is_xg_txn : Bool) (timestamp : String) (m : Nat)
    (h : (get_transaction_id s app_id is_xg_txn timestamp).2 = .ok m) :
    0 < m := by
  simp only [get_transaction_id] at h
  rcases hcsn : create_sequence_node s (get_txn_path_before_getting_id app_id)
      timestamp with ⟨s1, r⟩
  rw [hcsn] at h
  cases r with
  | error e => simp at h
  | ok txn_id =>
    have hpos : 0 < txn_id := by
      refine create_sequence_node_pos s (get_transaction_prefix_path app_id)
        timestamp txn_id ?_
      show (create_sequence_node s (get_txn_path_before_getting_id app_id)
        timestamp).2 = .ok txn_id
      rw [hcsn]
    cases is_xg_txn with
    | false =>
      simp only [Bool.false_eq_true, if_false] at h
      simp at h
      omega
    | true =>
      simp only [if_true] at h
      rcases hz : zkCreate s1 (get_xg_path app_id txn_id) timestamp true with s2 | s2
      · rw [hz] at h
        simp at h
      · rw [hz] at h
        simp at h
        omega

/- ### Claim theorems -/

/-- C3: `get_valid_transaction_id` returns the version the in-progress
transaction `target_txid` registered for `entity_key` (or, absent a
registration, `target_txid`); for a blacklisted `target_txid` it returns
the ValidVersion entry for the key, or `0` when none exists; otherwise it
returns `target_txid` unchanged.  The `0`-for-a-fresh-key behaviour is the
blacklisted case with no ValidVersion entry (or the unchanged return of the
sentinel `0`). -/
theorem get_valid_transaction_id_cases (s : ZKState) (app_id entity_key : String)
    (target_txid : Nat) :
    (is_blacklisted s app_id target_txid = true →
      get_valid_transaction_id s app_id target_txid entity_key =
        .ok (match lookupNode s (get_valid_transaction_path app_id entity_key) with
             | some v => parseNat v
             | none => 0))
    ∧ (is_blacklisted s app_id target_txid = false →
       zkExists s (get_transaction_lock_list_path app_id target_txid) = false →
       get_valid_transaction_id s app_id target_txid entity_key = .ok target_txid)
    ∧ (∀ key_list, is_blacklisted s app_id target_txid = false →
       zkExists s (get_transaction_lock_list_path app_id target_txid) = true →
       get_updated_key_list s app_id target_txid = .ok key_list →
       get_valid_transaction_id s app_id target_txid entity_key =
         .ok (match key_list.find? (fun kv => kv.1 = entity_key) with
              | some kv => parseNat kv.2
              | none => target_txid)) := by
  refine ⟨?_, ?_, ?_⟩
  · intro hb
    simp only [get_valid_transaction_id, is_in_transaction, hb, if_true]
    rcases hl : lookupNode s (get_valid_transaction_path app_id entity_key) with _ | v <;>
      simp [TxErr.isTxnExc, hl]
  · intro hb hex
    simp [get_valid_transaction_id, is_in_transaction, hb, hex]
  · intro key_list hb hex hkl
    simp only [get_valid_transaction_id, is_in_transaction, hb, Bool.false_eq_true,
      if_false, hex, hkl]
    rcases hf : key_list.find? (fun kv => kv.1 = entity_key) with _ | kv <;> simp [hf]

/-- C8: a non-XG transaction (no `xg` marker) that is live (not blacklisted,
lock list present) and does not already hold the lock path for `entity_key`
gets `ZKBadRequest` (`CrossGroupNotAllowed`) back at once: the call returns
the error with the ZooKeeper state untouched — no retry, no new lock. -/
theorem acquire_lock_cross_group_fails (fuel : Nat) (s : ZKState)
    (app_id entity_key : String) (txid cap : Nat) (ll : String)
    (hb : is_blacklisted s app_id txid = false)
    (hll : lookupNode s (get_transaction_lock_list_path app_id txid) = some ll)
    (hmem : pathToString (get_lock_root_path app_id entity_key) ∉
      splitOnStr ll LOCK_LIST_SEPARATOR)
    (hxg : is_xg s app_id txid = false) :
    acquire_lock fuel s app_id txid entity_key cap =
      (s, .error (.badRequest crossGroupMsg)) := by
  simp only [acquire_lock, is_in_transaction, hb, Bool.false_eq_true, if_false,
    zkExists, hll, Option.isSome_some, zkGet, hxg, hmem]

/-- C9: `acquire_lock` is idempotent on a held path — when the live
transaction's recorded lock list already contains the lock path resolved
from `entity_key`, the call returns `True` immediately and the ZooKeeper
state (lock node and lock list included) is unchanged. -/
theorem acquire_lock_idempotent (fuel : Nat) (s : ZKState)
    (app_id entity_key : String) (txid cap : Nat) (ll : String)
    (hb : is_blacklisted s app_id txid = false)
    (hll : lookupNode s (get_transaction_lock_list_path app_id txid) = some ll)
    (hmem : pathToString (get_lock_root_path app_id entity_key) ∈
      splitOnStr ll LOCK_LIST_SEPARATOR) :
    acquire_lock fuel s app_id txid entity_key cap = (s, .ok true) := by
  simp only [acquire_lock, is_in_transaction, hb, Bool.false_eq_true, if_false,
    zkExists, hll, Option.isSome_some, zkGet]
  simp [hmem]

/-- C10: `register_updated_key` raises its "transaction is not valid" error
exactly when neither a ValidVersion entry for the key nor the current
transaction's node exists; whenever the ValidVersion entry exists, the call
overwrites that global entry with `target_txid` and returns `True` without
any check of `current_txid`. -/
theorem register_updated_key_cases (s : ZKState) (app_id entity_key : String)
    (current_txid target_txid : Nat) :
    (zkExists s (get_valid_transaction_path app_id entity_key) = true →
      (register_updated_key s app_id current_txid target_txid entity_key).2 =
        .ok true ∧
      lookupNode (register_updated_key s app_id current_txid target_txid entity_key).1
          (get_valid_transaction_path app_id entity_key) =
        some (natRepr target_txid))
    ∧ ((register_updated_key s app_id current_txid target_txid entity_key).2 =
        .error (.txException (notValidMsg current_txid)) ↔
      (zkExists s (get_valid_transaction_path app_id entity_key) = false ∧
       zkExists s (get_transaction_path app_id current_txid) = false)) := by
  constructor
  · intro hv
    have hset : zkSet s (get_valid_transaction_path app_id entity_key)
        (natRepr target_txid) =
        .ok (replaceNode s (get_valid_transaction_path app_id entity_key)
          (natRepr target_txid)) := by
      unfold zkSet
      rw [if_pos hv]
    simp only [register_updated_key, hv, if_true, hset]
    refine ⟨by trivial, ?_⟩
    have hne : lookupNode s (get_valid_transaction_path app_id entity_key) ≠ none := by
      revert hv
      unfold zkExists
      cases lookupNode s (get_valid_transaction_path app_id entity_key) <;> simp
    exact lookupA_replaceKeyA_self _ _ s.tree hne
  · by_cases hv : zkExists s (get_valid_transaction_path app_id entity_key)
    · have hset : zkSet s (get_valid_transaction_path app_id entity_key)
          (natRepr target_txid) =
          .ok (replaceNode s (get_valid_transaction_path app_id entity_key)
            (natRepr target_txid)) := by
        unfold zkSet
        rw [if_pos hv]
      simp [register_updated_key, hv, hset]
    · by_cases ht : zkExists s (get_transaction_path app_id current_txid)
      · simp [register_updated_key, hv, ht]
      · simp [register_updated_key, hv, ht]

/-- `replaceNode` elsewhere does not change a lookup. -/
theorem lookupNode_replace_ne (s : ZKState) (p q : ZPath) (v : String)
    (h : q ≠ p) : lookupNode (replaceNode s q v) p = lookupNode s p :=
  lookupA_replaceKeyA_ne p q v h s.tree

/-- `replaceNode` at an existing node makes the new value visible. -/
theorem lookupNode_replace_self (s : ZKState) (p : ZPath) (v : String)
    (h : lookupNode s p ≠ none) : lookupNode (replaceNode s p v) p = some v :=
  lookupA_replaceKeyA_self p v s.tree h

/-- An entity-group lock path has five segments. -/
theorem get_lock_root_path_length (app_id key : String) :
    (get_lock_root_path app_id key).length = 5 := by
  simp [get_lock_root_path, get_app_root_path, APPS_PATH]

/-- A transaction's lock-list node path has six segments. -/
theorem get_transaction_lock_list_path_length (app_id : String) (txid : Nat) :
    (get_transaction_lock_list_path app_id txid).length = 6 := by
  simp [get_transaction_lock_list_path, get_transaction_path, get_app_root_path,
    APPS_PATH]

/-- A lock path never coincides with a lock-list node path. -/
theorem lock_root_ne_lock_list (app_id key app_id2 : String) (txid : Nat) :
    get_lock_root_path app_id key ≠ get_transaction_lock_list_path app_id2 txid := by
  intro h
  have h1 := get_lock_root_path_length app_id key
  have h2 := get_transaction_lock_list_path_length app_id2 txid
  rw [h] at h1
  omega

/-- C2 (amended): when an XG transaction already records `cap =
MAX_GROUPS_FOR_XG` lock paths and acquires one more free group,
`acquire_additional_lock` raises `ZKBadRequest` (`TooManyGroups`) — but only
after creating the new lock node and appending its path to the lock list,
both of which it keeps: the recorded group count becomes `cap + 1` and the
just-acquired lock is not released. -/
theorem acquire_additional_lock_too_many_groups (fuel : Nat) (s : ZKState)
    (app_id entity_key : String) (txid cap : Nat) (ll : String)
    (hfree : lookupNode s (get_lock_root_path app_id entity_key) = none)
    (hll : lookupNode s (get_transaction_lock_list_path app_id txid) = some ll)
    (hcap : (splitOnStr ll LOCK_LIST_SEPARATOR).length = cap) :
    (acquire_additional_lock fuel s app_id txid entity_key false cap).2 =
      .error (.badRequest tooManyGroupsMsg) ∧
    lookupNode (acquire_additional_lock fuel s app_id txid entity_key false cap).1
        (get_lock_root_path app_id entity_key) =
      some (pathToString (get_transaction_path app_id txid)) ∧
    lookupNode (acquire_additional_lock fuel s app_id txid entity_key false cap).1
        (get_transaction_lock_list_path app_id txid) =
      some (joinWithSep LOCK_LIST_SEPARATOR
        (splitOnStr ll LOCK_LIST_SEPARATOR ++
          [pathToString (get_lock_root_path app_id entity_key)])) := by
  have hnotex : ¬ zkExists s (get_lock_root_path app_id entity_key) = true := by
    unfold zkExists
    rw [hfree]
    simp
  have hcreate : zkCreate s (get_lock_root_path app_id entity_key)
      (pathToString (get_transaction_path app_id txid)) true =
      .ok (insertNode (ensureAncestors s (get_lock_root_path app_id entity_key))
        (get_lock_root_path app_id entity_key)
        (pathToString (get_transaction_path app_id txid))) := by
    unfold zkCreate
    rw [if_neg hnotex, if_pos rfl]
  have hlen : (get_lock_root_path app_id entity_key).length ≤
      (get_transaction_lock_list_path app_id txid).length := by
    rw [get_lock_root_path_length, get_transaction_lock_list_path_length]
    omega
  have hne : get_lock_root_path app_id entity_key ≠
      get_transaction_lock_list_path app_id txid :=
    lock_root_ne_lock_list app_id entity_key app_id txid
  have hll1 : lookupNode
      (insertNode (ensureAncestors s (get_lock_root_path app_id entity_key))
        (get_lock_root_path app_id entity_key)
        (pathToString (get_transaction_path app_id txid)))
      (get_transaction_lock_list_path app_id txid) = some ll := by
    rw [lookupNode_insert_ne _ _ _ _ hne,
      lookupNode_ensureAncestors _ _ _ hlen]
    exact hll
  have hlock1 : lookupNode
      (insertNode (ensureAncestors s (get_lock_root_path app_id entity_key))
        (get_lock_root_path app_id entity_key)
        (pathToString (get_transaction_path app_id txid)))
      (get_lock_root_path app_id entity_key) =
      some (pathToString (get_transaction_path app_id txid)) := by
    apply lookupNode_insert_self
    rw [lookupNode_ensureAncestors _ _ _ (le_refl _)]
    exact hfree
  have hset : ∀ v, zkSet
      (insertNode (ensureAncestors s (get_lock_root_path app_id entity_key))
        (get_lock_root_path app_id entity_key)
        (pathToString (get_transaction_path app_id txid)))
      (get_transaction_lock_list_path app_id txid) v =
      .ok (replaceNode
        (insertNode (ensureAncestors s (get_lock_root_path app_id entity_key))
          (get_lock_root_path app_id entity_key)
          (pathToString (get_transaction_path app_id txid)))
        (get_transaction_lock_list_path app_id txid) v) := by
    intro v
    unfold zkSet zkExists
    rw [hll1]
    simp
  have hover : (splitOnStr ll LOCK_LIST_SEPARATOR ++
      [pathToString (get_lock_root_path app_id entity_key)]).length > cap := by
    simp [hcap]
  simp only [acquire_additional_lock, hcreate, zkGet, hll1, hset, hover, if_true,
    Bool.false_eq_true, if_false]
  refine ⟨by simp [hover], ?_, ?_⟩
  · rw [lookupNode_replace_ne _ _ _ _ (Ne.symm hne)]
    exact hlock1
  · apply lookupNode_replace_self
    rw [hll1]
    simp

/-- `zkCreate` without `makepath` in closed form. -/
theorem zkCreate_async_reduce (s : ZKState) (p : ZPath) (v : String) :
    zkCreate s p v false =
      (if zkExists s p then .error .nodeExists
       else if parentExists s p then .ok (insertNode s p v)
       else .error .noNode) := by
  unfold zkCreate
  by_cases he : zkExists s p
  · rw [if_pos he, if_pos he]
  · rw [if_neg he, if_neg he]
    simp

/-- Ignoring the outcome of a `create_async` at a different path leaves a
lookup unchanged. -/
theorem lookupNode_createAsync_other (s : ZKState) (p q : ZPath) (v : String)
    (h : p ≠ q) :
    lookupNode (match zkCreate s p v false with
      | .ok s' => s'
      | .error _ => s) q = lookupNode s q := by
  rw [zkCreate_async_reduce]
  by_cases he : zkExists s p
  · rw [if_pos he]
  · rw [if_neg he]
    by_cases hp : parentExists s p
    · rw [if_pos hp]
      exact lookupNode_insert_ne s q p v h
    · rw [if_neg hp]

/-- Acquiring a free entity-group lock path with `create=True` succeeds and
stores the owning transaction's path in the lock node. -/
theorem acquire_additional_lock_fresh (fuel : Nat) (s : ZKState)
    (app_id entity_key : String) (txid cap : Nat)
    (hfree : lookupNode s (get_lock_root_path app_id entity_key) = none) :
    (acquire_additional_lock fuel s app_id txid entity_key true cap).2 = .ok true ∧
    lookupNode (acquire_additional_lock fuel s app_id txid entity_key true cap).1
        (get_lock_root_path app_id entity_key) =
      some (pathToString (get_transaction_path app_id txid)) := by
  have hnotex : ¬ zkExists s (get_lock_root_path app_id entity_key) = true := by
    unfold zkExists
    rw [hfree]
    simp
  have hcreate : zkCreate s (get_lock_root_path app_id entity_key)
      (pathToString (get_transaction_path app_id txid)) true =
      .ok (insertNode (ensureAncestors s (get_lock_root_path app_id entity_key))
        (get_lock_root_path app_id entity_key)
        (pathToString (get_transaction_path app_id txid))) := by
    unfold zkCreate
    rw [if_neg hnotex, if_pos rfl]
  have hlock : lookupNode
      (insertNode (ensureAncestors s (get_lock_root_path app_id entity_key))
        (get_lock_root_path app_id entity_key)
        (pathToString (get_transaction_path app_id txid)))
      (get_lock_root_path app_id entity_key) =
      some (pathToString (get_transaction_path app_id txid)) := by
    apply lookupNode_insert_self
    rw [lookupNode_ensureAncestors _ _ _ (le_refl _)]
    exact hfree
  conv_lhs => rw [acquire_additional_lock.eq_1]
  conv_rhs => rw [acquire_additional_lock.eq_1]
  simp only [hcreate, if_true]
  refine ⟨by trivial, ?_⟩
  rw [lookupNode_createAsync_other _ _ _ _
    (Ne.symm (lock_root_ne_lock_list app_id entity_key app_id txid))]
  exact hlock

/-- C5 (amended): single-path acquisition against a taken lock reads the
holder; an orphaned holder (its transaction node is gone) has its stale
lock node deleted and the acquisition retried once, transparently, after
which the caller owns the lock; a live holder makes the call fail with the
AlreadyLocked `ZKTransactionException`, whose message names the contested
lock path (the holder's identity is only logged, not raised). -/
theorem acquire_additional_lock_taken (fuel : Nat) (s : ZKState)
    (app_id entity_key : String) (txid cap : Nat) (holder : String)
    (hheld : lookupNode s (get_lock_root_path app_id entity_key) = some holder) :
    (is_orphan_lock s holder = true →
      (acquire_additional_lock (fuel + 1) s app_id txid entity_key true cap).2 =
        .ok true ∧
      lookupNode (acquire_additional_lock (fuel + 1) s app_id txid entity_key true cap).1
          (get_lock_root_path app_id entity_key) =
        some (pathToString (get_transaction_path app_id txid)))
    ∧ (is_orphan_lock s holder = false →
      acquire_additional_lock (fuel + 1) s app_id txid entity_key true cap =
        (s, .error (.txException (alreadyLockedMsg (get_lock_root_path app_id entity_key))))) := by
  have hex : zkExists s (get_lock_root_path app_id entity_key) = true := by
    unfold zkExists
    rw [hheld]
    rfl
  have hcreate1 : zkCreate s (get_lock_root_path app_id entity_key)
      (pathToString (get_transaction_path app_id txid)) true = .error .nodeExists := by
    unfold zkCreate
    rw [if_pos hex]
  have hget : zkGet s (get_lock_root_path app_id entity_key) = .ok holder := by
    unfold zkGet
    rw [hheld]
  constructor
  · intro horph
    have hdel : zkDelete s (get_lock_root_path app_id entity_key) =
        .ok { s with tree := eraseKeyA s.tree (get_lock_root_path app_id entity_key) } := by
      unfold zkDelete
      rw [if_pos hex]
    have hchain : acquire_additional_lock (fuel + 1) s app_id txid entity_key true cap =
        acquire_additional_lock fuel
          { s with tree := eraseKeyA s.tree (get_lock_root_path app_id entity_key) }
          app_id txid entity_key true cap := by
      conv_lhs => rw [acquire_additional_lock.eq_1]
      simp only [hcreate1, hget, horph, if_true, hdel]
    rw [hchain]
    exact acquire_additional_lock_fresh fuel _ app_id entity_key txid cap
      (lookupA_eraseKeyA_self _ s.tree)
  · intro hlive
    conv_lhs => rw [acquire_additional_lock.eq_1]
    simp only [hcreate1, hget, hlive, Bool.false_eq_true, if_false]

/-- C7: in a GC cycle, an expired transaction's batch is resolved before
`notify_failed_transaction` is invoked, and a `BatchInProgress` raised by
the resolution skips the notification for that cycle: the event trace never
contains a notification that is not immediately preceded by a completed
batch resolution. -/
theorem gc_resolves_batch_before_notify (s : ZKState) (db : DbState)
    (app_id : String) (txid txtime now max_tx_duration : Nat) :
    ((resolve_batch db).2 = .error .batchInProgress →
      GCEvent.txNotified ∉
        (gc_process_tx s db app_id txid txtime now max_tx_duration).2.2)
    ∧ (GCEvent.txNotified ∈
        (gc_process_tx s db app_id txid txtime now max_tx_duration).2.2 →
      (gc_process_tx s db app_id txid txtime now max_tx_duration).2.2 =
        [GCEvent.batchResolved, GCEvent.txNotified]) := by
  unfold gc_process_tx
  by_cases hexp : txtime + max_tx_duration < now
  · rw [if_pos hexp]
    rcases hr : resolve_batch db with ⟨db1, r⟩
    cases r with
    | ok applied =>
      rcases hn : notify_failed_transaction s app_id txid with ⟨s1, b1⟩
      constructor
      · intro hcontra
        simp at hcontra
      · intro _
        simp [hn]
    | error e =>
      cases e
      constructor
      · intro _
        simp
      · intro hmem
        simp at hmem
  · rw [if_neg hexp]
    constructor
    · intro _
      simp
    · intro hmem
      simp at hmem

/- ### Concrete states for closed runs -/

/-- The application root `/appscale/apps/guestbook`. -/
def gbRoot : ZPath := ["appscale", "apps", "guestbook"]

/-- The namespace nodes every scenario starts from. -/
def baseNodes : List (ZPath × String) :=
  [(["appscale"], ""), (["appscale", "apps"], ""), (gbRoot, ""),
   (gbRoot ++ ["txids"], ""), (gbRoot ++ ["locks"], "")]

/-- An empty coordination service. -/
def emptyZK : ZKState := { tree := [], seqCtr := [] }

/-- Transaction 1 of tenant `guestbook` holding the lock for group `grp`. -/
def stateC1 : ZKState :=
  { tree := baseNodes ++
      [(gbRoot ++ ["txids", "tx0000000001"], "1500000000.0"),
       (gbRoot ++ ["txids", "tx0000000001", "lockpath"],
         "/appscale/apps/guestbook/locks/grp"),
       (gbRoot ++ ["locks", "grp"],
         "/appscale/apps/guestbook/txids/tx0000000001")],
    seqCtr := [] }

/-- XG transaction 10 of tenant `guestbook` holding five group locks
(`MAX_GROUPS_FOR_XG = 5` as in the spec's scenario). -/
def stateC2 : ZKState :=
  { tree := baseNodes ++
      [(gbRoot ++ ["txids", "tx0000000010"], "1500000000.0"),
       (gbRoot ++ ["txids", "tx0000000010", "xg"], "1500000000.0"),
       (gbRoot ++ ["txids", "tx0000000010", "lockpath"],
         "/appscale/apps/guestbook/locks/g1!XG_LIST!/appscale/apps/guestbook/locks/g2!XG_LIST!/appscale/apps/guestbook/locks/g3!XG_LIST!/appscale/apps/guestbook/locks/g4!XG_LIST!/appscale/apps/guestbook/locks/g5"),
       (gbRoot ++ ["locks", "g1"], "/appscale/apps/guestbook/txids/tx0000000010"),
       (gbRoot ++ ["locks", "g2"], "/appscale/apps/guestbook/txids/tx0000000010"),
       (gbRoot ++ ["locks", "g3"], "/appscale/apps/guestbook/txids/tx0000000010"),
       (gbRoot ++ ["locks", "g4"], "/appscale/apps/guestbook/txids/tx0000000010"),
       (gbRoot ++ ["locks", "g5"], "/appscale/apps/guestbook/txids/tx0000000010")],
    seqCtr := [] }

/-- Entity-lock path for group A. -/
def lockA : ZPath := ["appscale", "apps", "guestbook", "locks", "groupA"]

/-- Entity-lock path for group B. -/
def lockB : ZPath := ["appscale", "apps", "guestbook", "locks", "groupB"]

/-- The classic two-transaction deadlock: txid 20 holds A (first contender)
and waits on B; txid 21 holds B and waits on A. -/
def stateC4 : ZKState :=
  { tree := [
      (lockA, ""), (lockB, ""),
      (lockA ++ ["u1__lock__0000000000"], "20"),
      (lockA ++ ["u2__lock__0000000001"], "21"),
      (lockB ++ ["u2__lock__0000000000"], "21"),
      (lockB ++ ["u1__lock__0000000001"], "20")],
    seqCtr := [] }

/-- Group `grp` locked by transaction 5 whose transaction node is gone (an
orphan lock). -/
def stateC5orphan : ZKState :=
  { tree := baseNodes ++
      [(gbRoot ++ ["locks", "grp"],
        "/appscale/apps/guestbook/txids/tx0000000005")],
    seqCtr := [] }

/-- Group `grp` locked by the live transaction 5. -/
def stateC5live : ZKState :=
  { tree := baseNodes ++
      [(gbRoot ++ ["txids", "tx0000000005"], "1500000000.0"),
       (gbRoot ++ ["locks", "grp"],
        "/appscale/apps/guestbook/txids/tx0000000005")],
    seqCtr := [] }

/-- Non-XG transaction 5 of tenant `guestbook` holding the lock for group
`g1`. -/
def stateC89 : ZKState :=
  { tree := baseNodes ++
      [(gbRoot ++ ["txids", "tx0000000005"], "1500000000.0"),
       (gbRoot ++ ["txids", "tx0000000005", "lockpath"],
         "/appscale/apps/guestbook/locks/g1"),
       (gbRoot ++ ["locks", "g1"],
         "/appscale/apps/guestbook/txids/tx0000000005")],
    seqCtr := [] }

/-- A ValidVersion entry `4` already recorded for key `Guestbook:1`. -/
def stateC10 : ZKState :=
  { tree := baseNodes ++
      [(gbRoot ++ ["txids", "validlist"], "default"),
       (gbRoot ++ ["txids", "validlist", "Guestbook%3A1"], "4")],
    seqCtr := [] }

/-- A batch whose compare-and-swap is lost to a concurrent process. -/
def dbRaced : DbState := { status := some false, hasBatch := true, casRaced := true }

/- ### Closed theorems for the claims -/

/-- C1: `notify_failed_transaction` completes successfully (returns `True`)
on a transaction holding a lock, yet writes no blacklist node, so a
subsequent `is_blacklisted` still returns `False` — the code never adds the
txid to the tenant's blacklist (no caller of the blacklist path ever
creates a node there). -/
theorem notify_failed_transaction_skips_blacklist :
    (notify_failed_transaction stateC1 "guestbook" 1).2 = true ∧
    is_blacklisted (notify_failed_transaction stateC1 "guestbook" 1).1
      "guestbook" 1 = false := by
  exact ⟨rfl, rfl⟩

set_option maxRecDepth 100000 in
/-- C2 counterexample: with the cap of 5 reached, acquiring a sixth group
raises `TooManyGroups` as claimed, but the recorded lock list now has 6
entries (not the cap) and the just-acquired `g6` lock node still exists —
it is not released. -/
theorem acquire_lock_sixth_group_run :
    (acquire_lock 2 stateC2 "guestbook" 10 "g6" 5).2 =
      .error (.badRequest tooManyGroupsMsg) ∧
    ((lookupNode (acquire_lock 2 stateC2 "guestbook" 10 "g6" 5).1
        (get_transaction_lock_list_path "guestbook" 10)).map
      fun v => (splitOnStr v LOCK_LIST_SEPARATOR).length) = some 6 ∧
    zkExists (acquire_lock 2 stateC2 "guestbook" 10 "g6" 5).1
      (get_lock_root_path "guestbook" "g6") = true := by
  exact ⟨rfl, rfl, rfl⟩

/-- C4: at the concrete two-transaction deadlock state, the implemented
deadlock step (`children[:our_index - 1]`) examines no contender at all and
forces no retry, while the specified rule (every earlier contender,
`children[:our_index]`) makes the younger transaction 21 yield. -/
theorem resolve_deadlocks_misses_predecessor :
    resolve_deadlocks stateC4 21
      (zip3L [lockA, lockB]
        ["u2__lock__0000000001", "u2__lock__0000000000"]
        [["u1__lock__0000000000", "u2__lock__0000000001"],
         ["u2__lock__0000000000", "u1__lock__0000000001"]]) = false ∧
    resolve_deadlocks_per_spec stateC4 21
      (zip3L [lockA, lockB]
        ["u2__lock__0000000001", "u2__lock__0000000000"]
        [["u1__lock__0000000000", "u2__lock__0000000001"],
         ["u2__lock__0000000000", "u1__lock__0000000001"]]) = true := by
  exact ⟨rfl, rfl⟩

/-- C5 counterexample: against the live holder (transaction 5), the call
fails with the AlreadyLocked exception as claimed, but the error names the
contested lock path and contains neither the competing txid `5` nor its
node name — contradicting "naming the competing txid". -/
theorem already_locked_error_without_txid :
    acquire_additional_lock 2 stateC5live "guestbook" 6 "grp" true 25 =
      (stateC5live,
        .error (.txException (alreadyLockedMsg (get_lock_root_path "guestbook" "grp")))) ∧
    strContains (alreadyLockedMsg (get_lock_root_path "guestbook" "grp"))
      (natRepr 5) = false ∧
    strContains (alreadyLockedMsg (get_lock_root_path "guestbook" "grp"))
      "tx0000000005" = false := by
  exact ⟨rfl, rfl, rfl⟩

/- ### Witnesses -/

set_option maxRecDepth 100000 in
/-- Witness for C2's amended theorem at the spec's own scenario (cap 5). -/
theorem acquire_additional_lock_too_many_groups_witness :
    (acquire_additional_lock 0 stateC2 "guestbook" 10 "g6" false 5).2 =
      .error (.badRequest tooManyGroupsMsg) ∧
    lookupNode (acquire_additional_lock 0 stateC2 "guestbook" 10 "g6" false 5).1
        (get_lock_root_path "guestbook" "g6") =
      some (pathToString (get_transaction_path "guestbook" 10)) ∧
    lookupNode (acquire_additional_lock 0 stateC2 "guestbook" 10 "g6" false 5).1
        (get_transaction_lock_list_path "guestbook" 10) =
      some (joinWithSep LOCK_LIST_SEPARATOR
        (splitOnStr "/appscale/apps/guestbook/locks/g1!XG_LIST!/appscale/apps/guestbook/locks/g2!XG_LIST!/appscale/apps/guestbook/locks/g3!XG_LIST!/appscale/apps/guestbook/locks/g4!XG_LIST!/appscale/apps/guestbook/locks/g5"
            LOCK_LIST_SEPARATOR ++
          [pathToString (get_lock_root_path "guestbook" "g6")])) :=
  acquire_additional_lock_too_many_groups 0 stateC2 "guestbook" "g6" 10 5
    "/appscale/apps/guestbook/locks/g1!XG_LIST!/appscale/apps/guestbook/locks/g2!XG_LIST!/appscale/apps/guestbook/locks/g3!XG_LIST!/appscale/apps/guestbook/locks/g4!XG_LIST!/appscale/apps/guestbook/locks/g5"
    rfl rfl rfl

/-- Witness for C3: a key with no prior write and no in-progress transaction
(sentinel target `0`) yields `0`. -/
theorem get_valid_transaction_id_witness :
    get_valid_transaction_id emptyZK "guestbook" 0 "Guestbook:1" = .ok 0 :=
  (get_valid_transaction_id_cases emptyZK "guestbook" "Guestbook:1" 0).2.1 rfl rfl

/-- Witness for C5's amended theorem: the orphaned `grp` lock is cleared and
the retried acquisition succeeds transparently for transaction 6. -/
theorem acquire_additional_lock_taken_witness :
    (acquire_additional_lock 2 stateC5orphan "guestbook" 6 "grp" true 25).2 =
      .ok true ∧
    lookupNode (acquire_additional_lock 2 stateC5orphan "guestbook" 6 "grp" true 25).1
        (get_lock_root_path "guestbook" "grp") =
      some (pathToString (get_transaction_path "guestbook" 6)) :=
  (acquire_additional_lock_taken 1 stateC5orphan "guestbook" "grp" 6 25
    "/appscale/apps/guestbook/txids/tx0000000005" rfl).1 rfl

/-- Witness for C6: from an empty service, sequence `0` is assigned first,
deleted, and the returned txid is `1 > 0`. -/
theorem get_transaction_id_pos_witness :
    (get_transaction_id emptyZK "guestbook" false "1500000000.0").2 = .ok 1 ∧
    0 < 1 :=
  ⟨rfl, get_transaction_id_pos emptyZK "guestbook" false "1500000000.0" 1 rfl⟩

/-- Witness for C7: a raced batch makes the GC skip the notification. -/
theorem gc_resolves_batch_before_notify_witness :
    GCEvent.txNotified ∉
      (gc_process_tx emptyZK dbRaced "guestbook" 7 0 10 1000).2.2 :=
  (gc_resolves_batch_before_notify emptyZK dbRaced "guestbook" 7 0 10 1000).1 rfl

/-- Witness for C8: non-XG transaction 5 holding `g1` asks for `g2`. -/
theorem acquire_lock_cross_group_witness :
    acquire_lock 2 stateC89 "guestbook" 5 "g2" 25 =
      (stateC89, .error (.badRequest crossGroupMsg)) :=
  acquire_lock_cross_group_fails 2 stateC89 "guestbook" "g2" 5 25
    "/appscale/apps/guestbook/locks/g1" rfl rfl (by decide) rfl

/-- Witness for C9: transaction 5 re-acquires its held `g1` path. -/
theorem acquire_lock_idempotent_witness :
    acquire_lock 2 stateC89 "guestbook" 5 "g1" 25 = (stateC89, .ok true) :=
  acquire_lock_idempotent 2 stateC89 "guestbook" "g1" 5 25
    "/appscale/apps/guestbook/locks/g1" rfl rfl (by decide)

/-- Witness for C10: an existing ValidVersion entry for `Guestbook:1` is
overwritten with the target txid although transaction 9 has no node. -/
theorem register_updated_key_witness :
    (register_updated_key stateC10 "guestbook" 9 12 "Guestbook:1").2 = .ok true ∧
    lookupNode (register_updated_key stateC10 "guestbook" 9 12 "Guestbook:1").1
        (get_valid_transaction_path "guestbook" "Guestbook:1") =
      some (natRepr 12) :=
  (register_updated_key_cases stateC10 "guestbook" "Guestbook:1" 9 12).1 rfl
